import Mathlib

/-!
Verification of the WeDo 2.0 BLE protocol engine (WeDoProg).

This file gives a shallow embedding, in Lean 4, of the parts of the Go
source relevant to the frozen specification claims:

* the port-notification handler (`handlePortNotification`, `isExternalPort`,
  `mapDeviceType` from the hub manager),
* the sensor-value decoder (`DecodeSensorValues` from `port_parser.go`),
* the motor-power byte encoding used by `SetMotorPower`,
* the hub session read/write primitives (`WriteCharacteristic`,
  `ReadCharacteristic`, `GetHubInfo` from `hub_manager.go`),
* the device-manager operations (`SetMotorPower`, `SetLEDColor`,
  `PlayTone`, `StopTone`),
* the active device detector (`detectPortWithPriority`, `testDeviceType`
  from `arch/device_detector.go`).

Go byte values are modelled as `Nat` (with explicit `% 256` where the code
performs a narrowing conversion), byte slices as `List Nat`, Go maps as
association lists, the BLE adapter as a pure oracle of write/read outcomes,
and fallible operations as `Except`.  Effects on the outside world (BLE
writes, BLE reads, registry updates, GUI callbacks) are made explicit as
data returned by the embedded functions.
-/

/-! ## Device-type constants (`utils.go` constant block) -/

def DEVICE_TYPE_MOTOR : Nat := 0x01

def DEVICE_TYPE_VOLTAGE : Nat := 0x14

def DEVICE_TYPE_CURRENT : Nat := 0x15

def DEVICE_TYPE_PIEZO_TONE : Nat := 0x16

def DEVICE_TYPE_RGB_LIGHT : Nat := 0x17

def DEVICE_TYPE_TILT_SENSOR : Nat := 0x22

def DEVICE_TYPE_MOTION_SENSOR : Nat := 0x23

/-- The seven known wire codes for device types, in the order they appear in
the spec's invariant list. -/
def knownDeviceTypeCodes : List Nat :=
  [0x01, 0x14, 0x15, 0x16, 0x17, 0x22, 0x23]

/-! ## Characteristic UUIDs (`part_004` constant block) -/

def SENSOR_VALUES_UUID : String := "00001560-1212-efde-1523-785feabcd123"

def INPUT_COMMAND_UUID : String := "00001563-1212-efde-1523-785feabcd123"

def OUTPUT_COMMAND_UUID : String := "00001565-1212-efde-1523-785feabcd123"

/-! ## Port-notification handler

`handlePortNotification` (hub manager, `part_012`) inspects a notification
payload and either drops it, records a device disconnection for a port, or
records a device connection with a mapped device type.  The Go handler
returns nothing and raises no error; we embed it as a total function into
an action type that captures its externally visible effect.
-/

/-- Effect of one run of the Go `handlePortNotification`:
`drop` = the function returned having touched neither the device map nor the
device callback; `disconnectEvent p` = `handleDeviceDisconnection(p)` was
invoked (fires the device callback with a disconnected record);
`connectEvent p t` = `handleDeviceConnection(p, t, data)` was invoked
(stores a device record for `p` and fires the device callback). -/
inductive PortAction where
  | drop : PortAction
  | disconnectEvent (port : Nat) : PortAction
  | connectEvent (port : Nat) (devType : Nat) : PortAction
deriving DecidableEq, Repr

/-- Model of `isExternalPort` from `part_012`: ports 1, 2 and 6 are external. -/
def isExternalPort (portID : Nat) : Bool :=
  portID == 1 || portID == 2 || portID == 6

/-- Model of `mapDeviceType` from `part_012`: maps the seven known wire codes to the
corresponding `DEVICE_TYPE_*` constants (numerically the identity on them)
and everything else to `0x00`. -/
def mapDeviceType (deviceType : Nat) : Nat :=
  if deviceType = 0x01 then DEVICE_TYPE_MOTOR
  else if deviceType = 0x22 then DEVICE_TYPE_TILT_SENSOR
  else if deviceType = 0x23 then DEVICE_TYPE_MOTION_SENSOR
  else if deviceType = 0x17 then DEVICE_TYPE_RGB_LIGHT
  else if deviceType = 0x16 then DEVICE_TYPE_PIEZO_TONE
  else if deviceType = 0x14 then DEVICE_TYPE_VOLTAGE
  else if deviceType = 0x15 then DEVICE_TYPE_CURRENT
  else 0x00

/-- Model of `handlePortNotification` from `part_012`, lines 1395-1468: length < 2 is
dropped; a 2-byte frame `[port, 0x00]` is a short disconnection (subject to
the external-port filter); a frame of length >= 4 is filtered by port and
then dispatched on its second byte (0x01 connection with the device type in
byte 3, 0x00 long-form disconnection, anything else dropped); length 3 is an
unknown format and is dropped. -/
def handlePortNotification (data : List Nat) : PortAction :=
  if data.length < 2 then .drop
  else if data.length = 2 then
    let portID := data.getD 0 0
    let eventType := data.getD 1 0
    if eventType = 0 then
      if !isExternalPort portID then .drop
      else .disconnectEvent portID
    else .drop
  else if 4 ≤ data.length then
    let portID := data.getD 0 0
    let connectionEvent := data.getD 1 0
    let deviceType := data.getD 3 0
    if !isExternalPort portID then .drop
    else if connectionEvent = 1 then
      if deviceType = 0 then .drop
      else if mapDeviceType deviceType = 0 then .drop
      else .connectEvent portID (mapDeviceType deviceType)
    else if connectionEvent = 0 then .disconnectEvent portID
    else .drop
  else .drop

/-- The device-map write performed by an action: `handleDeviceConnection`
stores `devices[port] = {port, type, connected}`; the other outcomes store
nothing (`handleDeviceDisconnection` only fires the callback). -/
def registryUpdate : PortAction → Option (Nat × Nat)
  | .connectEvent p t => some (p, t)
  | _ => none

/-- Whether an action fires the device-update callback: both connection and
disconnection handlers do, a dropped frame does not. -/
def firesDeviceCallback : PortAction → Bool
  | .drop => false
  | _ => true

/-! ## Sensor-value decoder (`port_parser.go`) -/

/-- Result variants of `DecodeSensorValues`: the Go function returns a
`byte`, a `uint16` or a `uint32` (as `interface{}`), or `nil`. -/
inductive SensorValue where
  | oneByte (v : Nat)
  | twoByte (v : Nat)
  | fourByte (v : Nat)
deriving DecidableEq, Repr

/-- Little-endian value of a byte list (first byte least significant). -/
def leValue (bytes : List Nat) : Nat :=
  bytes.foldr (fun b acc => b + 256 * acc) 0

/-- Model of `DecodeSensorValues` from `port_parser.go`, lines 98-125: requires at
least 3 bytes and `data[1] == portID`; then switches on `data[2]`:
0x01 returns `data[3]` when length >= 4, 0x02 the little-endian `uint16` at
offset 3 when length >= 5, 0x03 the little-endian `uint32` at offset 3 when
length >= 7; every other case returns `nil`. -/
def DecodeSensorValues (data : List Nat) (portID : Nat) : Option SensorValue :=
  if data.length < 3 then none
  else if data.getD 1 0 ≠ portID then none
  else
    let valueType := data.getD 2 0
    if valueType = 0x01 then
      if 4 ≤ data.length then some (.oneByte (data.getD 3 0)) else none
    else if valueType = 0x02 then
      if 5 ≤ data.length then
        some (.twoByte (data.getD 3 0 + 256 * data.getD 4 0))
      else none
    else if valueType = 0x03 then
      if 7 ≤ data.length then
        some (.fourByte (data.getD 3 0 + 256 * data.getD 4 0 +
          65536 * data.getD 5 0 + 16777216 * data.getD 6 0))
      else none
    else none

/-! ## Motor-power byte encoding

`SetMotorPower` (`part_001`) computes `powerFloat := float64(power)/100.0`
and then `speedByte := byte(int(0x54*powerFloat)+0xF0)` for negative power,
`byte(int(0x54*powerFloat)+0x10)` for positive power, `0x00` for zero.  For
`power` an integer in `[-100, 100]` the float computation is exact enough
that Go's `int(...)` (truncation toward zero) agrees with truncation of the
exact rational `0x54*power/100`: when `0x54*power/100` is an integer,
`power` is a multiple of 25, `power/100.0` is a dyadic rational represented
exactly, and the product is exact; otherwise `0x54*power/100` is at least
`1/25` away from any integer while the accumulated rounding error of the
two float operations is below `2^-45`.  We therefore embed the encoding
with exact integer arithmetic, using `Int.tdiv` (truncation toward zero,
matching Go's `int`) and `% 256` for Go's narrowing `byte(...)` cast. -/
def speedByte (power : Int) : Nat :=
  if power < 0 then ((0x54 * power).tdiv 100 + 0xF0).toNat % 256
  else if 0 < power then ((0x54 * power).tdiv 100 + 0x10).toNat % 256
  else 0x00

/-! ## Hub session: state, adapter oracle, read/write primitives -/

/-- Connection-relevant state of `HubManager`: the connected flag and the
set of UUIDs present in the discovered characteristic table. -/
structure HubState where
  isConnected : Bool
  characteristics : List String
deriving DecidableEq, Repr

/-- Pure oracle for the BLE adapter: whether a given write succeeds and
what a given read returns (`none` = the read errors). -/
structure Adapter where
  writeOk : String → List Nat → Bool
  readResult : String → Option (List Nat)

/-- Error kinds surfaced by the hub session, one per distinct
`fmt.Errorf` site in `WriteCharacteristic` / `ReadCharacteristic`. -/
inductive HubError where
  | notConnected
  | unknownCharacteristic (uuid : String)
  | writeFailed
  | readFailed
deriving DecidableEq, Repr

/-- Model of `WriteCharacteristic` from `hub_manager.go`, lines 694-714: fails with
the not-connected error before touching the characteristic table when the
session is disconnected; fails with the unknown-characteristic error when
the UUID was not discovered; otherwise performs exactly one BLE write,
whose outcome the adapter decides.  The second component is the list of
BLE writes performed, as (uuid, payload) pairs. -/
def WriteCharacteristic (hm : HubState) (ad : Adapter) (uuid : String)
    (data : List Nat) : Except HubError Unit × List (String × List Nat) :=
  if !hm.isConnected then (.error .notConnected, [])
  else if !(hm.characteristics.contains uuid) then
    (.error (.unknownCharacteristic uuid), [])
  else if ad.writeOk uuid data then (.ok (), [(uuid, data)])
  else (.error .writeFailed, [(uuid, data)])

/-- Model of `ReadCharacteristic` from `hub_manager.go`, lines 716-737: same guards,
then one BLE read whose outcome the adapter decides.  The second component
counts the BLE reads performed. -/
def ReadCharacteristic (hm : HubState) (ad : Adapter) (uuid : String) :
    Except HubError (List Nat) × Nat :=
  if !hm.isConnected then (.error .notConnected, 0)
  else if !(hm.characteristics.contains uuid) then
    (.error (.unknownCharacteristic uuid), 0)
  else
    match ad.readResult uuid with
    | some bytes => (.ok bytes, 1)
    | none => (.error .readFailed, 1)

/-! ## Device manager (`part_001`, second document: the V2 device manager)

A `Device` record keeps the fields the device-manager checks inspect.
`DMState` pairs the hub-session state with the two device maps involved:
`dmDevices` (the device manager's own map) and `hubDevices` (the hub
manager's map, consulted through `GetDeviceFromPort`).  Maps are embedded
as association lists queried with `List.lookup`.
-/

/-- Device record (the fields of the Go `Device` struct that the
device-manager operations read). -/
structure Device where
  portID : Nat
  deviceType : Nat
  isConnected : Bool
deriving DecidableEq, Repr

/-- Combined state seen by a device-manager operation. -/
structure DMState where
  hub : HubState
  dmDevices : List (Nat × Device)
  hubDevices : List (Nat × Device)
deriving DecidableEq, Repr

/-- Map update: Go's `dm.devices[port] = d`.  The new binding shadows and
removes any previous binding for `port`. -/
def mapInsert (l : List (Nat × Device)) (port : Nat) (d : Device) :
    List (Nat × Device) :=
  (port, d) :: l.filter (fun q => q.1 ≠ port)

/-- Error kinds returned by the device-manager operations, one per
distinct `fmt.Errorf` site, plus forwarded hub-session errors. -/
inductive DMError where
  | notConnected
  | deviceNotFound (port : Nat)
  | deviceNotConnected (port : Nat)
  | notAnLED (port : Nat)
  | piezoNotConnected (port : Nat)
  | hubErr (e : HubError)
deriving DecidableEq, Repr

/-- Outcome of one device-manager call: the returned value, the BLE writes
performed synchronously during the call, the BLE writes scheduled on a
spawned goroutine (the delayed stop command), and the state after the call
(the device maps may gain a cached entry). -/
structure DMOutcome where
  result : Except DMError Unit
  writes : List (String × List Nat)
  delayedWrites : List (String × List Nat)
  finalState : DMState
deriving Repr

/-- The device-lookup-with-fallback shared by `SetMotorPower` and
`SetLEDColor` (V2): consult `dm.devices`, fall back to
`hubMgr.GetDeviceFromPort`, and cache a hub hit via `AddOrUpdateDevice`.
Returns the device found (if any) and the possibly updated state. -/
def lookupWithFallback (st : DMState) (port : Nat) : Option Device × DMState :=
  match st.dmDevices.lookup port with
  | some d => (some d, st)
  | none =>
    match st.hubDevices.lookup port with
    | some d => (some d, { st with dmDevices := mapInsert st.dmDevices port d })
    | none => (none, st)

/-- Model of `SetMotorPower` from `part_001`, lines 283-355 (V2): not-connected is
the only typed error of its own; a missing or disconnected device is only
logged and the command is issued regardless; the motor frame is
`[port, 0x01, 0x01, speedByte]`; with `duration > 0` a goroutine is spawned
that later writes the stop frame `[port, 0x01, 0x01, 0x00]`. -/
def SetMotorPower (st : DMState) (ad : Adapter) (port : Nat) (power : Int)
    (duration : Nat) : DMOutcome :=
  if !st.hub.isConnected then ⟨.error .notConnected, [], [], st⟩
  else
    let st1 := (lookupWithFallback st port).2
    let cmd := [port, 0x01, 0x01, speedByte power]
    match WriteCharacteristic st1.hub ad OUTPUT_COMMAND_UUID cmd with
    | (.error e, w) => ⟨.error (.hubErr e), w, [], st1⟩
    | (.ok _, w) =>
      if 0 < duration then
        ⟨.ok (), w, [(OUTPUT_COMMAND_UUID, [port, 0x01, 0x01, 0x00])], st1⟩
      else ⟨.ok (), w, [], st1⟩

/-- Model of `StopTone` from `part_001`, lines 492-505: not-connected is the only
typed error; no device check at all; writes `[port, 0x03, 0x00]`. -/
def StopTone (st : DMState) (ad : Adapter) (port : Nat) : DMOutcome :=
  if !st.hub.isConnected then ⟨.error .notConnected, [], [], st⟩
  else
    match WriteCharacteristic st.hub ad OUTPUT_COMMAND_UUID [port, 0x03, 0x00] with
    | (.error e, w) => ⟨.error (.hubErr e), w, [], st⟩
    | (.ok _, w) => ⟨.ok (), w, [], st⟩

/-- The piezo frame built by `PlayTone`: little-endian freq and duration. -/
def piezoToneCmd (port freq dur : Nat) : List Nat :=
  [port, 0x02, 0x04, freq % 256, freq / 256 % 256, dur % 256, dur / 256 % 256]

/-- Model of `PlayTone` from `part_001`, lines 460-489 (V2): typed error when not
connected, and when `dm.devices` lacks a connected device of type 0x16 on
the addressed port (no hub-map fallback here); otherwise writes the piezo
frame. -/
def PlayTone (st : DMState) (ad : Adapter) (port freq dur : Nat) : DMOutcome :=
  if !st.hub.isConnected then ⟨.error .notConnected, [], [], st⟩
  else
    match st.dmDevices.lookup port with
    | none => ⟨.error (.piezoNotConnected port), [], [], st⟩
    | some d =>
      if !d.isConnected || d.deviceType ≠ 0x16 then
        ⟨.error (.piezoNotConnected port), [], [], st⟩
      else
        match WriteCharacteristic st.hub ad OUTPUT_COMMAND_UUID
            (piezoToneCmd port freq dur) with
        | (.error e, w) => ⟨.error (.hubErr e), w, [], st⟩
        | (.ok _, w) => ⟨.ok (), w, [], st⟩

/-- The RGB-mode setup frame `SetLEDColor` writes (mode byte as given). -/
def ledModeCmd (port mode : Nat) : List Nat :=
  [0x01, 0x02, port, 0x17, mode, 0x01, 0x00, 0x00, 0x00, 0x02, 0x01]

/-- The write sequence at the tail of `SetLEDColor`: a best-effort RGB-mode
setup write (on failure an alternative mode frame is tried, both results
ignored) followed by the colour frame `[0x06, 0x04, 0x03, r, g, b]` whose
write result is returned. -/
def setLEDColorWrites (st1 : DMState) (ad : Adapter) (port r g b : Nat) :
    DMOutcome :=
  let modeWrites :=
    match WriteCharacteristic st1.hub ad INPUT_COMMAND_UUID (ledModeCmd port 1) with
    | (.ok _, w1) => w1
    | (.error _, w1) =>
      w1 ++ (WriteCharacteristic st1.hub ad INPUT_COMMAND_UUID (ledModeCmd port 0)).2
  let colorCmd := [0x06, 0x04, 0x03, r, g, b]
  match WriteCharacteristic st1.hub ad OUTPUT_COMMAND_UUID colorCmd with
  | (.error e, w) => ⟨.error (.hubErr e), modeWrites ++ w, [], st1⟩
  | (.ok _, w) => ⟨.ok (), modeWrites ++ w, [], st1⟩

/-- Model of `SetLEDColor` from `part_001`, lines 403-457 (V2): typed error when not
connected; device lookup with hub fallback; for ports other than 6 a
missing device, a disconnected device, or a device of a type other than
0x17 is a typed error before any write (port 6, the built-in LED, skips
those checks); then the mode/colour write sequence of
`setLEDColorWrites`. -/
def SetLEDColor (st : DMState) (ad : Adapter) (port r g b : Nat) : DMOutcome :=
  if !st.hub.isConnected then ⟨.error .notConnected, [], [], st⟩
  else
    let found := (lookupWithFallback st port).1
    let st1 := (lookupWithFallback st port).2
    match found with
    | none =>
      if port ≠ 6 then ⟨.error (.deviceNotFound port), [], [], st1⟩
      else setLEDColorWrites st1 ad port r g b
    | some d =>
      if !d.isConnected then
        if port ≠ 6 then ⟨.error (.deviceNotConnected port), [], [], st1⟩
        else setLEDColorWrites st1 ad port r g b
      else if d.deviceType ≠ DEVICE_TYPE_RGB_LIGHT ∧ port ≠ 6 then
        ⟨.error (.notAnLED port), [], [], st1⟩
      else setLEDColorWrites st1 ad port r g b

/-! ## Device detector (`arch/device_detector.go`) -/

/-- The priority-ordered candidate list of `detectPortWithPriority`:
port 1 tries the motor first, port 2 the sensors first, any other port
uses the port-1 order. -/
def priorityList (portID : Nat) : List Nat :=
  if portID = 1 then
    [DEVICE_TYPE_MOTOR, DEVICE_TYPE_TILT_SENSOR, DEVICE_TYPE_MOTION_SENSOR,
      DEVICE_TYPE_PIEZO_TONE]
  else if portID = 2 then
    [DEVICE_TYPE_TILT_SENSOR, DEVICE_TYPE_MOTION_SENSOR, DEVICE_TYPE_MOTOR,
      DEVICE_TYPE_PIEZO_TONE]
  else
    [DEVICE_TYPE_MOTOR, DEVICE_TYPE_TILT_SENSOR, DEVICE_TYPE_MOTION_SENSOR,
      DEVICE_TYPE_PIEZO_TONE]

/-- The setup frame `testDeviceType` sends for each candidate type. -/
def detectorSetupCmd (portID deviceType : Nat) : List Nat :=
  if deviceType = DEVICE_TYPE_MOTOR then
    [0x01, 0x02, portID, 0x01, 0x00, 0x01, 0x00, 0x00, 0x00, 0x02, 0x01]
  else if deviceType = DEVICE_TYPE_TILT_SENSOR then
    [0x01, 0x02, portID, 0x22, 0x01, 0x01, 0x00, 0x00, 0x00, 0x02, 0x01]
  else if deviceType = DEVICE_TYPE_MOTION_SENSOR then
    [0x01, 0x02, portID, 0x23, 0x00, 0x01, 0x00, 0x00, 0x00, 0x02, 0x01]
  else
    [0x01, 0x02, portID, 0x16, 0x00, 0x01, 0x00, 0x00, 0x00, 0x02, 0x01]

/-- The test actuation `testDeviceType` sends for the two actuator
candidates (minimal forward speed for the motor, a 440 Hz / 1000 ms tone
for the piezo). -/
def detectorTestCmd (portID deviceType : Nat) : List Nat :=
  if deviceType = DEVICE_TYPE_MOTOR then [portID, 0x01, 0x01, 0x10]
  else [portID, 0x02, 0x04, 0xB8, 0x01, 0xE8, 0x03]

/-- Whether a hub-session write returns without error. -/
def writeSucceeds (hm : HubState) (ad : Adapter) (uuid : String)
    (data : List Nat) : Bool :=
  match (WriteCharacteristic hm ad uuid data).1 with
  | .ok _ => true
  | .error _ => false

/-- Success of `testDeviceType` from `arch/device_detector.go`, lines
141-229: an unknown candidate type fails immediately; otherwise the setup
frame must be accepted; for the motor and the piezo the test actuation must
also be accepted (the unconditional stop/silence writes that follow do not
influence the verdict); for the tilt and motion sensors a read of the
shared sensor-values characteristic must succeed and return at least 4
bytes whose byte 1 echoes the probed port. -/
def testDeviceTypeOK (hm : HubState) (ad : Adapter) (portID deviceType : Nat) :
    Bool :=
  if deviceType ≠ DEVICE_TYPE_MOTOR ∧ deviceType ≠ DEVICE_TYPE_TILT_SENSOR ∧
      deviceType ≠ DEVICE_TYPE_MOTION_SENSOR ∧ deviceType ≠ DEVICE_TYPE_PIEZO_TONE
  then false
  else if !writeSucceeds hm ad INPUT_COMMAND_UUID (detectorSetupCmd portID deviceType)
  then false
  else if deviceType = DEVICE_TYPE_MOTOR ∨ deviceType = DEVICE_TYPE_PIEZO_TONE then
    writeSucceeds hm ad OUTPUT_COMMAND_UUID (detectorTestCmd portID deviceType)
  else
    match (ReadCharacteristic hm ad SENSOR_VALUES_UUID).1 with
    | .error _ => false
    | .ok bytes => decide (4 ≤ bytes.length) && (bytes.getD 1 0 == portID)

/-- The probing loop of `detectPortWithPriority`: try each candidate in
order, stop at the first success, return the type found (if any). -/
def detectLoop (hm : HubState) (ad : Adapter) (portID : Nat) :
    List Nat → Option Nat
  | [] => none
  | t :: rest =>
    if testDeviceTypeOK hm ad portID t then some t
    else detectLoop hm ad portID rest

/-- Model of `detectPortWithPriority` from `arch/device_detector.go`, lines 99-138,
together with the registration performed inside `testDeviceType` on
success: the first succeeding candidate is stored in the hub manager's
device map as a connected device of that type and the loop stops; if every
candidate fails nothing is stored.  Returns the updated device map and the
registered type. -/
def detectPortWithPriority (hm : HubState) (ad : Adapter)
    (devices : List (Nat × Device)) (portID : Nat) :
    List (Nat × Device) × Option Nat :=
  match detectLoop hm ad portID (priorityList portID) with
  | some t => (mapInsert devices portID ⟨portID, t, true⟩, some t)
  | none => (devices, none)

/-! ## HubInfo snapshot and `GetHubInfo`

`GetHubInfo` (`hub_manager.go`, lines 767-775) dereferences the manager's
`*HubInfo`, copies the struct into a fresh local, and returns a pointer to
that local.  To state the aliasing property we model the relevant part of
the Go heap explicitly: a store of `HubInfo` cells addressed by naturals,
with a bump allocator.  The manager state holds the address of its stored
snapshot; the allocation discipline keeps every live address below
`next`. -/

/-- The Go `HubInfo` struct (time modelled as a natural timestamp). -/
structure HubInfo where
  name : String
  address : String
  rssi : Int
  manufacturer : String
  firmwareVersion : String
  softwareVersion : String
  systemID : String
  battery : Int
  lastUpdated : Nat
deriving DecidableEq, Repr

/-- A heap of `HubInfo` cells with a bump allocator. -/
structure InfoHeap where
  cells : Nat → HubInfo
  next : Nat

/-- Allocate a fresh cell holding `v`; returns the heap and the address. -/
def allocCell (h : InfoHeap) (v : HubInfo) : InfoHeap × Nat :=
  (⟨fun a => if a = h.next then v else h.cells a, h.next + 1⟩, h.next)

/-- Overwrite the cell at address `a` (a Go assignment through the
returned pointer). -/
def writeCell (h : InfoHeap) (a : Nat) (v : HubInfo) : InfoHeap :=
  ⟨fun x => if x = a then v else h.cells x, h.next⟩

/-- The heap-relevant state of the hub manager: the heap and the address
of the stored `hubInfo` snapshot. -/
structure ManagerHeapState where
  heap : InfoHeap
  hubInfoAddr : Nat

/-- Model of `GetHubInfo` from `hub_manager.go`, lines 767-775:
`infoCopy := *hm.hubInfo; return &infoCopy` — copy the stored snapshot
into a freshly allocated cell and return its address. -/
def GetHubInfo (s : ManagerHeapState) : ManagerHeapState × Nat :=
  let r := allocCell s.heap (s.heap.cells s.hubInfoAddr)
  (⟨r.1, s.hubInfoAddr⟩, r.2)

/-! ## Theorems -/

/-- Helper: a device-type byte outside the seven known wire codes is mapped
to 0x00 by `mapDeviceType`. -/
theorem mapDeviceType_unknown (t : Nat) (h : t ∉ knownDeviceTypeCodes) :
    mapDeviceType t = 0 := by
  simp only [knownDeviceTypeCodes, List.mem_cons, List.not_mem_nil, or_false,
    not_or] at h
  obtain ⟨h1, h14, h15, h16, h17, h22, h23⟩ := h
  simp [mapDeviceType, h1, h14, h15, h16, h17, h22, h23]

/-- C2: whenever the session is disconnected, `WriteCharacteristic` and
`ReadCharacteristic` return the not-connected error for every UUID and
every payload, and perform no BLE write or read. -/
theorem C2_disconnected_write_read (hm : HubState) (ad : Adapter)
    (uuid : String) (data : List Nat) (h : hm.isConnected = false) :
    WriteCharacteristic hm ad uuid data = (.error .notConnected, []) ∧
    ReadCharacteristic hm ad uuid = (.error .notConnected, 0) := by
  constructor <;> simp [WriteCharacteristic, ReadCharacteristic, h]

/-- C2 witness: a concrete disconnected session. -/
theorem C2_disconnected_write_read_witness :
    WriteCharacteristic ⟨false, [OUTPUT_COMMAND_UUID]⟩
        ⟨fun _ _ => true, fun _ => some []⟩ OUTPUT_COMMAND_UUID [1, 2, 3] =
      (.error .notConnected, []) ∧
    ReadCharacteristic ⟨false, [OUTPUT_COMMAND_UUID]⟩
        ⟨fun _ _ => true, fun _ => some []⟩ OUTPUT_COMMAND_UUID =
      (.error .notConnected, 0) :=
  C2_disconnected_write_read ⟨false, [OUTPUT_COMMAND_UUID]⟩
    ⟨fun _ _ => true, fun _ => some []⟩ OUTPUT_COMMAND_UUID [1, 2, 3] rfl

/-- C3: a port notification whose port id (byte 0) is not an external port
(not in the set 1, 2, 6) is dropped by the handler: no device record is
created, updated or removed and no device callback fires. -/
theorem C3_nonexternal_port_ignored (data : List Nat)
    (h : isExternalPort (data.getD 0 0) = false) :
    handlePortNotification data = .drop ∧
    registryUpdate (handlePortNotification data) = none ∧
    firesDeviceCallback (handlePortNotification data) = false := by
  have hd : handlePortNotification data = .drop := by
    have h2 : isExternalPort (data[0]?.getD 0) = false := by
      simpa [List.getD] using h
    unfold handlePortNotification
    split
    · rfl
    · split
      · simp [h2]
      · split
        · simp [h2]
        · rfl
  exact ⟨hd, by rw [hd]; rfl, by rw [hd]; rfl⟩

/-- C3 witness: a connection frame for port 3 is ignored. -/
theorem C3_nonexternal_port_ignored_witness :
    isExternalPort 3 = false ∧
    handlePortNotification [3, 1, 0, 0x22] = .drop ∧
    registryUpdate (handlePortNotification [3, 1, 0, 0x22]) = none ∧
    firesDeviceCallback (handlePortNotification [3, 1, 0, 0x22]) = false :=
  ⟨by decide, C3_nonexternal_port_ignored [3, 1, 0, 0x22] (by decide)⟩

/-- C4: a connection notification (length at least 4, second byte 0x01)
whose device-type byte (byte 3) is 0x00 or outside the seven known codes is
dropped: no device record is created or updated for the port. -/
theorem C4_unknown_device_type_ignored (data : List Nat)
    (hlen : 4 ≤ data.length) (hev : data.getD 1 0 = 1)
    (ht : data.getD 3 0 = 0 ∨ data.getD 3 0 ∉ knownDeviceTypeCodes) :
    handlePortNotification data = .drop ∧
    registryUpdate (handlePortNotification data) = none := by
  have hz : data.getD 3 0 = 0 ∨ mapDeviceType (data.getD 3 0) = 0 := by
    rcases ht with h | h
    · exact Or.inl h
    · exact Or.inr (mapDeviceType_unknown _ h)
  have hd : handlePortNotification data = .drop := by
    have hev2 : data[1]?.getD 0 = 1 := by simpa [List.getD] using hev
    have hz2 : data[3]?.getD 0 = 0 ∨ mapDeviceType (data[3]?.getD 0) = 0 := by
      simpa [List.getD] using hz
    unfold handlePortNotification
    rw [if_neg (by omega), if_neg (by omega), if_pos hlen]
    by_cases hp : isExternalPort (data[0]?.getD 0)
    · by_cases h0 : data[3]?.getD 0 = 0
      · simp [hp, hev2, h0]
      · simp [hp, hev2, h0, hz2.resolve_left h0]
    · simp [hp]
  exact ⟨hd, by rw [hd]; rfl⟩

/-- C4 witness: an unknown device type 0x42 on port 1 creates nothing. -/
theorem C4_unknown_device_type_ignored_witness :
    4 ≤ ([1, 1, 0, 0x42] : List Nat).length ∧
    ([1, 1, 0, 0x42] : List Nat).getD 1 0 = 1 ∧
    (0x42 : Nat) ∉ knownDeviceTypeCodes ∧
    handlePortNotification [1, 1, 0, 0x42] = .drop ∧
    registryUpdate (handlePortNotification [1, 1, 0, 0x42]) = none :=
  ⟨by decide, by decide, by decide,
    C4_unknown_device_type_ignored [1, 1, 0, 0x42] (by decide) (by decide)
      (Or.inr (by decide))⟩

/-- C7 counterexample: the claim says every 2-byte frame `[port, 0x00]`
records a disconnection for that port, but a non-external port such as 3 is
filtered out: the handler drops `[3, 0]` and records nothing. -/
theorem C7_short_frame_counterexample :
    handlePortNotification [3, 0] = PortAction.drop ∧
    handlePortNotification [3, 0] ≠ PortAction.disconnectEvent 3 := by
  decide

/-- C7 amended: a 2-byte frame `[port, 0x00]` records a disconnection for
`port` when `port` is an external port (1, 2 or 6) and is dropped
otherwise; a 2-byte frame with a nonzero second byte is dropped as
unrecognized; any input shorter than 2 bytes produces no event.  The
handler is a total function into `PortAction` — malformed input is dropped,
never raised as an error. -/
theorem C7_short_frame_handling (p e : Nat) (data : List Nat)
    (hshort : data.length < 2) :
    handlePortNotification [p, e] =
      (if e = 0 ∧ isExternalPort p = true then .disconnectEvent p
        else .drop) ∧
    handlePortNotification data = .drop := by
  constructor
  · by_cases he : e = 0
    · by_cases hp : isExternalPort p
      · rw [if_pos ⟨he, hp⟩]
        simp [handlePortNotification, he, hp, List.getD]
      · rw [if_neg (by simp [hp])]
        have hp2 : isExternalPort p = false := by simpa using hp
        simp [handlePortNotification, he, hp2, List.getD]
    · rw [if_neg (by simp [he])]
      simp [handlePortNotification, he, List.getD]
  · unfold handlePortNotification
    rw [if_pos hshort]

/-- C7 witness: port 1 disconnects, an empty frame is dropped. -/
theorem C7_short_frame_handling_witness :
    handlePortNotification [1, 0] = PortAction.disconnectEvent 1 ∧
    handlePortNotification [] = PortAction.drop := by
  have h := C7_short_frame_handling 1 0 [] (by decide)
  refine ⟨?_, h.2⟩
  have h1 := h.1
  rw [if_pos (by decide : (0 : Nat) = 0 ∧ isExternalPort 1 = true)] at h1
  exact h1

/-- C8: `DecodeSensorValues` returns a value only when byte 1 of the frame
equals the queried port (and the frame has at least 3 bytes); value type
0x01, 0x02 or 0x03 then selects the 1-, 2- or 4-byte little-endian payload
starting at offset 3 provided the frame is long enough, and every other
case (unknown value type, or a frame too short for its value type) returns
nothing. -/
theorem C8_sensor_value_decoding (data : List Nat) (port : Nat) :
    (data.length < 3 → DecodeSensorValues data port = none) ∧
    (data.getD 1 0 ≠ port → DecodeSensorValues data port = none) ∧
    (3 ≤ data.length → data.getD 1 0 = port →
      (data.getD 2 0 = 0x01 → 4 ≤ data.length →
        DecodeSensorValues data port =
          some (.oneByte (leValue ((data.drop 3).take 1)))) ∧
      (data.getD 2 0 = 0x02 → 5 ≤ data.length →
        DecodeSensorValues data port =
          some (.twoByte (leValue ((data.drop 3).take 2)))) ∧
      (data.getD 2 0 = 0x03 → 7 ≤ data.length →
        DecodeSensorValues data port =
          some (.fourByte (leValue ((data.drop 3).take 4)))) ∧
      (data.getD 2 0 ∉ ([0x01, 0x02, 0x03] : List Nat) →
        DecodeSensorValues data port = none) ∧
      (data.getD 2 0 = 0x01 → data.length < 4 →
        DecodeSensorValues data port = none) ∧
      (data.getD 2 0 = 0x02 → data.length < 5 →
        DecodeSensorValues data port = none) ∧
      (data.getD 2 0 = 0x03 → data.length < 7 →
        DecodeSensorValues data port = none)) := by
  refine ⟨?_, ?_, ?_⟩
  · intro hlen
    unfold DecodeSensorValues
    rw [if_pos hlen]
  · intro hport
    unfold DecodeSensorValues
    by_cases h3 : data.length < 3
    · rw [if_pos h3]
    · rw [if_neg h3, if_pos hport]
  · intro hlen hport
    refine ⟨?_, ?_, ?_, ?_, ?_, ?_, ?_⟩
    · intro hvt h4
      match data, h4 with
      | a :: b :: c :: d :: tl, _ =>
        simp only [List.getD] at hport hvt
        simp_all [DecodeSensorValues, leValue, List.getD]
        try omega
    · intro hvt h5
      match data, h5 with
      | a :: b :: c :: d :: e :: tl, _ =>
        simp only [List.getD] at hport hvt
        simp_all [DecodeSensorValues, leValue, List.getD]
        try omega
    · intro hvt h7
      match data, h7 with
      | a :: b :: c :: d :: e :: f :: g :: tl, _ =>
        simp only [List.getD] at hport hvt
        simp_all [DecodeSensorValues, leValue, List.getD]
        try omega
    · intro hvt
      simp only [List.mem_cons, List.not_mem_nil, or_false, not_or] at hvt
      obtain ⟨h1, h2, h3⟩ := hvt
      have h1b : ¬ data[2]?.getD 0 = 1 := by simpa [List.getD] using h1
      have h2b : ¬ data[2]?.getD 0 = 2 := by simpa [List.getD] using h2
      have h3b : ¬ data[2]?.getD 0 = 3 := by simpa [List.getD] using h3
      unfold DecodeSensorValues
      rw [if_neg (by omega), if_neg (by simpa using hport)]
      simp [h1b, h2b, h3b]
    · intro hvt hshort
      have hvtb : data[2]?.getD 0 = 1 := by simpa [List.getD] using hvt
      unfold DecodeSensorValues
      rw [if_neg (by omega), if_neg (by simpa using hport)]
      simp [hvtb, (by omega : ¬ 4 ≤ data.length)]
      omega
    · intro hvt hshort
      have hvtb : data[2]?.getD 0 = 2 := by simpa [List.getD] using hvt
      unfold DecodeSensorValues
      rw [if_neg (by omega), if_neg (by simpa using hport)]
      simp [hvtb, (by omega : ¬ 5 ≤ data.length)]
      omega
    · intro hvt hshort
      have hvtb : data[2]?.getD 0 = 3 := by simpa [List.getD] using hvt
      unfold DecodeSensorValues
      rw [if_neg (by omega), if_neg (by simpa using hport)]
      simp [hvtb, (by omega : ¬ 7 ≤ data.length)]
      omega

/-- C8 witness: a 2-byte value 0x0201 decoded from a 5-byte frame for
port 2, a rejected frame for a mismatched port, and a rejected unknown
value type. -/
theorem C8_sensor_value_decoding_witness :
    DecodeSensorValues [0, 2, 2, 1, 2] 2 = some (.twoByte 513) ∧
    DecodeSensorValues [0, 2, 2, 1, 2] 1 = none ∧
    DecodeSensorValues [0, 2, 9, 1, 2] 2 = none := by
  have h1 := ((C8_sensor_value_decoding [0, 2, 2, 1, 2] 2).2.2 (by decide)
    (by decide)).2.1 (by decide) (by decide)
  have h2 := (C8_sensor_value_decoding [0, 2, 2, 1, 2] 1).2.1 (by decide)
  have h3 := ((C8_sensor_value_decoding [0, 2, 9, 1, 2] 2).2.2 (by decide)
    (by decide)).2.2.2.1 (by decide)
  exact ⟨by simpa [leValue] using h1, h2, h3⟩

/-- Helper: on the forward band the encoded byte is `84*power/100 + 0x10`
in plain natural-number arithmetic. -/
theorem speedByte_pos_eq (p : Int) (h1 : 1 ≤ p) (h2 : p ≤ 100) :
    speedByte p = 84 * p.toNat / 100 + 16 := by
  unfold speedByte
  rw [if_neg (by omega), if_pos (by omega)]
  rw [show (0x54 : Int) * p = ((84 * p.toNat : Nat) : Int) by push_cast; omega]
  rw [show ((84 * p.toNat : Nat) : Int).tdiv (100 : Int) =
    ((84 * p.toNat / 100 : Nat) : Int) from rfl]
  have hd : 84 * p.toNat / 100 ≤ 84 := by
    calc 84 * p.toNat / 100 ≤ 8400 / 100 :=
          Nat.div_le_div_right (by omega)
      _ = 84 := by norm_num
  omega

/-- Helper: on the reverse band the encoded byte is
`0xF0 - 84*|power|/100` in plain natural-number arithmetic. -/
theorem speedByte_neg_eq (p : Int) (h1 : -100 ≤ p) (h2 : p ≤ -1) :
    speedByte p = 240 - 84 * (-p).toNat / 100 := by
  unfold speedByte
  rw [if_pos (by omega)]
  rw [show (0x54 : Int) * p = -((84 * (-p).toNat : Nat) : Int) by push_cast; omega]
  rw [Int.neg_tdiv]
  rw [show ((84 * (-p).toNat : Nat) : Int).tdiv (100 : Int) =
    ((84 * (-p).toNat / 100 : Nat) : Int) from rfl]
  have hd : 84 * (-p).toNat / 100 ≤ 84 := by
    calc 84 * (-p).toNat / 100 ≤ 8400 / 100 :=
          Nat.div_le_div_right (by omega)
      _ = 84 := by norm_num
  omega

/-- C6: the motor-power encoding maps power 0 to 0x00; forward powers in
`[1, 100]` land in the band `[0x10, 0x64]` and negative powers in
`[-100, -1]` in the mirrored band `[0x9C, 0xF0]` (negative as a signed
byte, approaching 0xF0 as the power approaches 0); and within each sign
band the encoded byte is monotone in the power. -/
theorem C6_motor_power_encoding :
    speedByte 0 = 0x00 ∧
    (∀ p : Int, 1 ≤ p → p ≤ 100 →
      0x10 ≤ speedByte p ∧ speedByte p ≤ 0x64) ∧
    (∀ p : Int, -100 ≤ p → p ≤ -1 →
      0x9C ≤ speedByte p ∧ speedByte p ≤ 0xF0) ∧
    (∀ p q : Int, 1 ≤ p → p ≤ q → q ≤ 100 → speedByte p ≤ speedByte q) ∧
    (∀ p q : Int, -100 ≤ p → p ≤ q → q ≤ -1 → speedByte p ≤ speedByte q) := by
  refine ⟨rfl, ?_, ?_, ?_, ?_⟩
  · intro p h1 h2
    rw [speedByte_pos_eq p h1 h2]
    have hd : 84 * p.toNat / 100 ≤ 84 := by
      calc 84 * p.toNat / 100 ≤ 8400 / 100 := Nat.div_le_div_right (by omega)
        _ = 84 := by norm_num
    omega
  · intro p h1 h2
    rw [speedByte_neg_eq p h1 h2]
    have hd : 84 * (-p).toNat / 100 ≤ 84 := by
      calc 84 * (-p).toNat / 100 ≤ 8400 / 100 := Nat.div_le_div_right (by omega)
        _ = 84 := by norm_num
    omega
  · intro p q h1 hpq h2
    rw [speedByte_pos_eq p h1 (by omega), speedByte_pos_eq q (by omega) h2]
    have : 84 * p.toNat / 100 ≤ 84 * q.toNat / 100 :=
      Nat.div_le_div_right (by omega)
    omega
  · intro p q h1 hpq h2
    rw [speedByte_neg_eq p h1 (by omega), speedByte_neg_eq q (by omega) h2]
    have : 84 * (-q).toNat / 100 ≤ 84 * (-p).toNat / 100 :=
      Nat.div_le_div_right (by omega)
    omega

/-- C6 witness: concrete band membership and monotonicity instances. -/
theorem C6_motor_power_encoding_witness :
    (0x10 ≤ speedByte 50 ∧ speedByte 50 ≤ 0x64) ∧
    (0x9C ≤ speedByte (-50) ∧ speedByte (-50) ≤ 0xF0) ∧
    speedByte 10 ≤ speedByte 90 ∧
    speedByte (-90) ≤ speedByte (-10) :=
  ⟨C6_motor_power_encoding.2.1 50 (by norm_num) (by norm_num),
    C6_motor_power_encoding.2.2.1 (-50) (by norm_num) (by norm_num),
    C6_motor_power_encoding.2.2.2.1 10 90 (by norm_num) (by norm_num) (by norm_num),
    C6_motor_power_encoding.2.2.2.2 (-90) (-10) (by norm_num) (by norm_num)
      (by norm_num)⟩

/-- Helper: the device-lookup fallback never touches the hub-session part
of the state. -/
theorem lookupWithFallback_hub (st : DMState) (port : Nat) :
    ((lookupWithFallback st port).2).hub = st.hub := by
  unfold lookupWithFallback
  cases st.dmDevices.lookup port
  · cases st.hubDevices.lookup port <;> rfl
  · rfl

/-- C1 counterexample: on a connected session holding the output-command
characteristic, `SetMotorPower(port=1, power=50, duration=0)` writes the
payload `[1, 0x01, 0x01, 0x3A]` — the claimed speed byte 0x38 is wrong,
since `int(0x54*0.5) + 0x10 = 42 + 16 = 58 = 0x3A`. -/
theorem C1_motor_write_counterexample :
    (SetMotorPower ⟨⟨true, [OUTPUT_COMMAND_UUID]⟩, [], []⟩
        ⟨fun _ _ => true, fun _ => some []⟩ 1 50 0).writes =
      [(OUTPUT_COMMAND_UUID, [1, 0x01, 0x01, 0x3A])] ∧
    (SetMotorPower ⟨⟨true, [OUTPUT_COMMAND_UUID]⟩, [], []⟩
        ⟨fun _ _ => true, fun _ => some []⟩ 1 50 0).writes ≠
      [(OUTPUT_COMMAND_UUID, [1, 0x01, 0x01, 0x38])] := by
  constructor
  · rfl
  · intro h
    have := congrArg (fun l => (l.getD 0 (OUTPUT_COMMAND_UUID, [])).2.getD 3 0) h
    simp [List.getD] at this
    exact absurd this (by decide)

/-- C1 amended: while the session is connected and the output-command
characteristic is present, `SetMotorPower(port=1, power=50, duration=0)`
performs exactly one write, to the output-command characteristic, with
payload `[1, 0x01, 0x01, 0x3A]` (speed byte `int(0x54*0.5)+0x10 = 0x3A`),
and schedules no delayed write. -/
theorem C1_motor_write_payload (st : DMState) (ad : Adapter)
    (hconn : st.hub.isConnected = true)
    (hchar : st.hub.characteristics.contains OUTPUT_COMMAND_UUID = true) :
    (SetMotorPower st ad 1 50 0).writes =
      [(OUTPUT_COMMAND_UUID, [1, 0x01, 0x01, 0x3A])] ∧
    (SetMotorPower st ad 1 50 0).delayedWrites = [] := by
  have hhub := lookupWithFallback_hub st 1
  have hsb : speedByte 50 = 0x3A := by decide
  unfold SetMotorPower
  rw [hconn]
  simp only [Bool.not_true, Bool.false_eq_true, if_false]
  unfold WriteCharacteristic
  rw [hhub, hconn, hchar]
  simp only [Bool.not_true, Bool.false_eq_true, if_false, hsb]
  by_cases hw : ad.writeOk OUTPUT_COMMAND_UUID [1, 0x01, 0x01, 0x3A]
  · rw [if_pos hw]
    exact ⟨rfl, rfl⟩
  · rw [if_neg hw]
    exact ⟨rfl, rfl⟩

/-- C1 witness: the concrete connected state of the counterexample. -/
theorem C1_motor_write_payload_witness :
    (SetMotorPower ⟨⟨true, [OUTPUT_COMMAND_UUID]⟩, [], []⟩
        ⟨fun _ _ => false, fun _ => some []⟩ 1 50 0).writes =
      [(OUTPUT_COMMAND_UUID, [1, 0x01, 0x01, 0x3A])] ∧
    (SetMotorPower ⟨⟨true, [OUTPUT_COMMAND_UUID]⟩, [], []⟩
        ⟨fun _ _ => false, fun _ => some []⟩ 1 50 0).delayedWrites = [] :=
  C1_motor_write_payload ⟨⟨true, [OUTPUT_COMMAND_UUID]⟩, [], []⟩
    ⟨fun _ _ => false, fun _ => some []⟩ rfl (by decide)

/-- C5 counterexample: on a connected session with an empty device
registry, `StopTone(5)` and `SetMotorPower(5, 50, 0)` do not return a
typed error for the missing device — both issue their write to the
output-command characteristic and `StopTone` returns ok, refuting the
claim that every device-manager operation checks for a confirmed device
of the expected type before writing. -/
theorem C5_no_device_check_counterexample :
    (StopTone ⟨⟨true, [OUTPUT_COMMAND_UUID]⟩, [], []⟩
        ⟨fun _ _ => true, fun _ => some []⟩ 5).result = .ok () ∧
    (StopTone ⟨⟨true, [OUTPUT_COMMAND_UUID]⟩, [], []⟩
        ⟨fun _ _ => true, fun _ => some []⟩ 5).writes =
      [(OUTPUT_COMMAND_UUID, [5, 0x03, 0x00])] ∧
    (SetMotorPower ⟨⟨true, [OUTPUT_COMMAND_UUID]⟩, [], []⟩
        ⟨fun _ _ => true, fun _ => some []⟩ 5 50 0).result = .ok () ∧
    (SetMotorPower ⟨⟨true, [OUTPUT_COMMAND_UUID]⟩, [], []⟩
        ⟨fun _ _ => true, fun _ => some []⟩ 5 50 0).writes =
      [(OUTPUT_COMMAND_UUID, [5, 0x01, 0x01, 0x3A])] :=
  ⟨rfl, rfl, rfl, rfl⟩

/-- C5 amended: every device-manager operation returns the not-connected
typed error, with no write, when the session is disconnected.  When
connected, `PlayTone` returns a typed error and writes nothing when the
addressed port lacks a confirmed connected piezo device, and `SetLEDColor`
does the same for ports other than 6 when the port lacks a confirmed
connected RGB-light device; `SetMotorPower` and `StopTone` perform no
device check and issue their write regardless of the registry. -/
theorem C5_device_manager_guards :
    (∀ st ad port power dur, (st : DMState).hub.isConnected = false →
      SetMotorPower st ad port power dur = ⟨.error .notConnected, [], [], st⟩) ∧
    (∀ st ad port r g b, (st : DMState).hub.isConnected = false →
      SetLEDColor st ad port r g b = ⟨.error .notConnected, [], [], st⟩) ∧
    (∀ st ad port freq dur, (st : DMState).hub.isConnected = false →
      PlayTone st ad port freq dur = ⟨.error .notConnected, [], [], st⟩) ∧
    (∀ st ad port, (st : DMState).hub.isConnected = false →
      StopTone st ad port = ⟨.error .notConnected, [], [], st⟩) ∧
    (∀ st ad port freq dur, (st : DMState).hub.isConnected = true →
      (∀ d, st.dmDevices.lookup port = some d →
        ¬(d.isConnected = true ∧ d.deviceType = 0x16)) →
      (PlayTone st ad port freq dur).result = .error (.piezoNotConnected port) ∧
      (PlayTone st ad port freq dur).writes = []) ∧
    (∀ st ad port r g b, (st : DMState).hub.isConnected = true → port ≠ 6 →
      (lookupWithFallback st port).1 = none →
      (SetLEDColor st ad port r g b).result = .error (.deviceNotFound port) ∧
      (SetLEDColor st ad port r g b).writes = []) ∧
    (∀ st ad port r g b d, (st : DMState).hub.isConnected = true → port ≠ 6 →
      (lookupWithFallback st port).1 = some d → d.isConnected = false →
      (SetLEDColor st ad port r g b).result = .error (.deviceNotConnected port) ∧
      (SetLEDColor st ad port r g b).writes = []) ∧
    (∀ st ad port r g b d, (st : DMState).hub.isConnected = true → port ≠ 6 →
      (lookupWithFallback st port).1 = some d → d.isConnected = true →
      d.deviceType ≠ DEVICE_TYPE_RGB_LIGHT →
      (SetLEDColor st ad port r g b).result = .error (.notAnLED port) ∧
      (SetLEDColor st ad port r g b).writes = []) ∧
    (∀ st ad port power dur, (st : DMState).hub.isConnected = true →
      st.hub.characteristics.contains OUTPUT_COMMAND_UUID = true →
      (SetMotorPower st ad port power dur).writes =
        [(OUTPUT_COMMAND_UUID, [port, 0x01, 0x01, speedByte power])]) ∧
    (∀ st ad port, (st : DMState).hub.isConnected = true →
      st.hub.characteristics.contains OUTPUT_COMMAND_UUID = true →
      (StopTone st ad port).writes =
        [(OUTPUT_COMMAND_UUID, [port, 0x03, 0x00])]) := by
  refine ⟨?_, ?_, ?_, ?_, ?_, ?_, ?_, ?_, ?_, ?_⟩
  · intro st ad port power dur h
    unfold SetMotorPower
    rw [h]
    rfl
  · intro st ad port r g b h
    unfold SetLEDColor
    rw [h]
    rfl
  · intro st ad port freq dur h
    unfold PlayTone
    rw [h]
    rfl
  · intro st ad port h
    unfold StopTone
    rw [h]
    rfl
  · intro st ad port freq dur hconn hdev
    unfold PlayTone
    rw [hconn]
    cases hlk : st.dmDevices.lookup port with
    | none => simp [hlk]
    | some d =>
      by_cases hc : d.isConnected = true
      · have ht : d.deviceType ≠ 0x16 := fun he => hdev d hlk ⟨hc, he⟩
        simp [hlk, hc, ht]
      · have hc2 : d.isConnected = false := by
          cases hb : d.isConnected
          · rfl
          · exact absurd hb hc
        simp [hlk, hc2]
  · intro st ad port r g b hconn hp6 hfound
    unfold SetLEDColor
    rw [hconn]
    simp [hfound, hp6]
  · intro st ad port r g b d hconn hp6 hfound hc
    unfold SetLEDColor
    rw [hconn]
    simp [hfound, hp6, hc]
  · intro st ad port r g b d hconn hp6 hfound hc ht
    unfold SetLEDColor
    rw [hconn]
    simp [hfound, hp6, hc, ht]
  · intro st ad port power dur hconn hchar
    have hhub := lookupWithFallback_hub st port
    unfold SetMotorPower
    rw [hconn]
    simp only [Bool.not_true, Bool.false_eq_true, if_false]
    unfold WriteCharacteristic
    rw [hhub, hconn, hchar]
    simp only [Bool.not_true, Bool.false_eq_true, if_false]
    by_cases hw : ad.writeOk OUTPUT_COMMAND_UUID [port, 0x01, 0x01, speedByte power]
    · rw [if_pos hw]
      by_cases hd : 0 < dur
      · rw [show (SetMotorPower.match_1 (fun _ => DMOutcome)
          (Except.ok (), [(OUTPUT_COMMAND_UUID, [port, 0x01, 0x01, speedByte power])])
          (fun e w => ⟨.error (.hubErr e), w, [], (lookupWithFallback st port).2⟩)
          (fun a w => if 0 < dur then
              ⟨.ok (), w, [(OUTPUT_COMMAND_UUID, [port, 0x01, 0x01, 0x00])],
                (lookupWithFallback st port).2⟩
            else ⟨.ok (), w, [], (lookupWithFallback st port).2⟩)).writes =
          [(OUTPUT_COMMAND_UUID, [port, 0x01, 0x01, speedByte power])] from by
            simp [hd]]
      · simp [hd]
    · rw [if_neg hw]
  · intro st ad port hconn hchar
    unfold StopTone
    rw [hconn]
    simp only [Bool.not_true, Bool.false_eq_true, if_false]
    unfold WriteCharacteristic
    rw [hconn, hchar]
    simp only [Bool.not_true, Bool.false_eq_true, if_false]
    by_cases hw : ad.writeOk OUTPUT_COMMAND_UUID [port, 0x03, 0x00]
    · rw [if_pos hw]
    · rw [if_neg hw]

/-- C5 witness: concrete instances — a disconnected `SetMotorPower`, a
connected `PlayTone` with an empty registry, a connected `SetLEDColor` on
port 1 with no device, and a connected `StopTone` that writes without any
device check. -/
theorem C5_device_manager_guards_witness :
    SetMotorPower ⟨⟨false, []⟩, [], []⟩
        ⟨fun _ _ => true, fun _ => some []⟩ 1 50 0 =
      ⟨.error .notConnected, [], [], ⟨⟨false, []⟩, [], []⟩⟩ ∧
    (PlayTone ⟨⟨true, [OUTPUT_COMMAND_UUID]⟩, [], []⟩
        ⟨fun _ _ => true, fun _ => some []⟩ 1 440 1000).result =
      .error (.piezoNotConnected 1) ∧
    (SetLEDColor ⟨⟨true, [OUTPUT_COMMAND_UUID]⟩, [], []⟩
        ⟨fun _ _ => true, fun _ => some []⟩ 1 10 20 30).result =
      .error (.deviceNotFound 1) ∧
    (StopTone ⟨⟨true, [OUTPUT_COMMAND_UUID]⟩, [], []⟩
        ⟨fun _ _ => true, fun _ => some []⟩ 9).writes =
      [(OUTPUT_COMMAND_UUID, [9, 0x03, 0x00])] := by
  refine ⟨?_, ?_, ?_, ?_⟩
  · exact C5_device_manager_guards.1 ⟨⟨false, []⟩, [], []⟩
      ⟨fun _ _ => true, fun _ => some []⟩ 1 50 0 rfl
  · exact (C5_device_manager_guards.2.2.2.2.1 ⟨⟨true, [OUTPUT_COMMAND_UUID]⟩, [], []⟩
      ⟨fun _ _ => true, fun _ => some []⟩ 1 440 1000 rfl
      (fun d h => by simp [List.lookup] at h)).1
  · exact (C5_device_manager_guards.2.2.2.2.2.1 ⟨⟨true, [OUTPUT_COMMAND_UUID]⟩, [], []⟩
      ⟨fun _ _ => true, fun _ => some []⟩ 1 10 20 30 rfl (by decide) rfl).1
  · exact C5_device_manager_guards.2.2.2.2.2.2.2.2.2
      ⟨⟨true, [OUTPUT_COMMAND_UUID]⟩, [], []⟩
      ⟨fun _ _ => true, fun _ => some []⟩ 9 rfl (by decide)

/-- Helper: the probing loop returns nothing exactly when every candidate
in the list fails its test. -/
theorem detectLoop_eq_none (hm : HubState) (ad : Adapter) (portID : Nat)
    (l : List Nat) :
    detectLoop hm ad portID l = none ↔
      ∀ t ∈ l, testDeviceTypeOK hm ad portID t = false := by
  induction l with
  | nil => simp [detectLoop]
  | cons a rest ih =>
    by_cases ha : testDeviceTypeOK hm ad portID a
    · simp [detectLoop, ha]
    · simp only [detectLoop, if_neg ha, ih, List.mem_cons]
      constructor
      · intro h t ht
        rcases ht with h1 | h1
        · subst h1; simpa using ha
        · exact h t h1
      · intro h t ht
        exact h t (Or.inr ht)

/-- Helper: when the probing loop returns a candidate, that candidate
passed its test and every candidate before it in the list failed. -/
theorem detectLoop_eq_some (hm : HubState) (ad : Adapter) (portID : Nat)
    (l : List Nat) (t : Nat) (h : detectLoop hm ad portID l = some t) :
    testDeviceTypeOK hm ad portID t = true ∧
    ∃ l1 l2, l = l1 ++ t :: l2 ∧
      ∀ u ∈ l1, testDeviceTypeOK hm ad portID u = false := by
  induction l with
  | nil => simp [detectLoop] at h
  | cons a rest ih =>
    by_cases ha : testDeviceTypeOK hm ad portID a
    · unfold detectLoop at h
      rw [if_pos ha] at h
      obtain rfl : a = t := by injection h
      exact ⟨ha, [], rest, rfl, by simp⟩
    · unfold detectLoop at h
      rw [if_neg ha] at h
      obtain ⟨h1, l1, l2, heq, hall⟩ := ih h
      refine ⟨h1, a :: l1, l2, by rw [heq]; rfl, ?_⟩
      intro u hu
      rcases List.mem_cons.mp hu with h2 | h2
      · subst h2; simpa using ha
      · exact hall u h2

/-- C9: the detector registers exactly the first candidate of the
priority-ordered list whose test succeeds — the test write being accepted
for actuators, the sensor-values read echoing the probed port for
sensors — storing it as a connected device on that port, and stops there;
if no candidate succeeds, the device map is left untouched. -/
theorem C9_first_success_registered (hm : HubState) (ad : Adapter)
    (devices : List (Nat × Device)) (port : Nat) :
    ((detectPortWithPriority hm ad devices port).2 = none →
      (detectPortWithPriority hm ad devices port).1 = devices ∧
      ∀ t ∈ priorityList port, testDeviceTypeOK hm ad port t = false) ∧
    (∀ t, (detectPortWithPriority hm ad devices port).2 = some t →
      testDeviceTypeOK hm ad port t = true ∧
      ((detectPortWithPriority hm ad devices port).1).lookup port =
        some ⟨port, t, true⟩ ∧
      ∃ l1 l2, priorityList port = l1 ++ t :: l2 ∧
        ∀ u ∈ l1, testDeviceTypeOK hm ad port u = false) := by
  cases hdl : detectLoop hm ad port (priorityList port) with
  | none =>
    constructor
    · intro _
      exact ⟨by simp [detectPortWithPriority, hdl],
        (detectLoop_eq_none hm ad port (priorityList port)).mp hdl⟩
    · intro t ht
      rw [detectPortWithPriority, hdl] at ht
      simp at ht
  | some a =>
    constructor
    · intro hnone
      rw [detectPortWithPriority, hdl] at hnone
      simp at hnone
    · intro t ht
      rw [detectPortWithPriority, hdl] at ht
      simp only [Option.some.injEq] at ht
      subst ht
      obtain ⟨h1, l1, l2, heq, hall⟩ :=
        detectLoop_eq_some hm ad port (priorityList port) a hdl
      refine ⟨h1, ?_, l1, l2, heq, hall⟩
      simp [detectPortWithPriority, hdl, mapInsert, List.lookup]

/-- C9 witness: on a connected session where only input-command writes are
accepted and sensor reads return a frame echoing port 2, probing port 2
registers the first candidate — the tilt sensor (0x22) — and stores it. -/
theorem C9_first_success_registered_witness :
    (detectPortWithPriority
        ⟨true, [INPUT_COMMAND_UUID, OUTPUT_COMMAND_UUID, SENSOR_VALUES_UUID]⟩
        ⟨fun uuid _ => uuid == INPUT_COMMAND_UUID, fun _ => some [0, 2, 1, 0]⟩
        [] 2).2 = some 0x22 ∧
    testDeviceTypeOK
        ⟨true, [INPUT_COMMAND_UUID, OUTPUT_COMMAND_UUID, SENSOR_VALUES_UUID]⟩
        ⟨fun uuid _ => uuid == INPUT_COMMAND_UUID, fun _ => some [0, 2, 1, 0]⟩
        2 0x22 = true ∧
    ((detectPortWithPriority
        ⟨true, [INPUT_COMMAND_UUID, OUTPUT_COMMAND_UUID, SENSOR_VALUES_UUID]⟩
        ⟨fun uuid _ => uuid == INPUT_COMMAND_UUID, fun _ => some [0, 2, 1, 0]⟩
        [] 2).1).lookup 2 = some ⟨2, 0x22, true⟩ := by
  have hsome : (detectPortWithPriority
      ⟨true, [INPUT_COMMAND_UUID, OUTPUT_COMMAND_UUID, SENSOR_VALUES_UUID]⟩
      ⟨fun uuid _ => uuid == INPUT_COMMAND_UUID, fun _ => some [0, 2, 1, 0]⟩
      [] 2).2 = some 0x22 := by rfl
  have h := (C9_first_success_registered
      ⟨true, [INPUT_COMMAND_UUID, OUTPUT_COMMAND_UUID, SENSOR_VALUES_UUID]⟩
      ⟨fun uuid _ => uuid == INPUT_COMMAND_UUID, fun _ => some [0, 2, 1, 0]⟩
      [] 2).2 0x22 hsome
  exact ⟨hsome, h.1, h.2.1⟩

/-- C10: `GetHubInfo` returns an independent copy of the stored snapshot.
For every manager state respecting the allocation discipline, the returned
address is distinct from the manager's internal one, the returned cell
holds the snapshot value, and after any mutation through the returned
address both the stored snapshot and the copy handed out by a subsequent
`GetHubInfo` call still hold the original value. -/
theorem C10_gethubinfo_returns_copy (s : ManagerHeapState)
    (hvalid : s.hubInfoAddr < s.heap.next) :
    (GetHubInfo s).2 ≠ s.hubInfoAddr ∧
    (GetHubInfo s).1.heap.cells (GetHubInfo s).2 =
      s.heap.cells s.hubInfoAddr ∧
    ∀ v : HubInfo,
      (writeCell (GetHubInfo s).1.heap (GetHubInfo s).2 v).cells
          s.hubInfoAddr = s.heap.cells s.hubInfoAddr ∧
      (GetHubInfo ⟨writeCell (GetHubInfo s).1.heap (GetHubInfo s).2 v,
          s.hubInfoAddr⟩).1.heap.cells
        (GetHubInfo ⟨writeCell (GetHubInfo s).1.heap (GetHubInfo s).2 v,
          s.hubInfoAddr⟩).2 = s.heap.cells s.hubInfoAddr := by
  have hne : s.hubInfoAddr ≠ s.heap.next := by omega
  refine ⟨by simpa [GetHubInfo, allocCell] using (by omega :
    s.heap.next ≠ s.hubInfoAddr), ?_, ?_⟩
  · simp [GetHubInfo, allocCell]
  · intro v
    constructor
    · simp [GetHubInfo, allocCell, writeCell, hne]
    · simp [GetHubInfo, allocCell, writeCell, hne,
        (by omega : ¬ s.heap.next + 1 = s.heap.next)]

/-- C10 witness: a concrete one-cell heap; mutating the returned copy does
not change the stored snapshot. -/
theorem C10_gethubinfo_returns_copy_witness :
    (GetHubInfo ⟨⟨fun _ => ⟨"WeDo", "aa:bb", -50, "LEGO", "1.0", "1.0",
        "id1", 100, 0⟩, 1⟩, 0⟩).2 ≠ 0 ∧
    (writeCell
        (GetHubInfo ⟨⟨fun _ => ⟨"WeDo", "aa:bb", -50, "LEGO", "1.0", "1.0",
          "id1", 100, 0⟩, 1⟩, 0⟩).1.heap
        (GetHubInfo ⟨⟨fun _ => ⟨"WeDo", "aa:bb", -50, "LEGO", "1.0", "1.0",
          "id1", 100, 0⟩, 1⟩, 0⟩).2
        ⟨"mutated", "", 0, "", "", "", "", 0, 0⟩).cells 0 =
      ⟨"WeDo", "aa:bb", -50, "LEGO", "1.0", "1.0", "id1", 100, 0⟩ := by
  have h := C10_gethubinfo_returns_copy
    ⟨⟨fun _ => ⟨"WeDo", "aa:bb", -50, "LEGO", "1.0", "1.0", "id1", 100, 0⟩,
      1⟩, 0⟩ (by decide)
  exact ⟨h.1, (h.2.2 ⟨"mutated", "", 0, "", "", "", "", 0, 0⟩).1⟩
